import Mathlib

/-!
Shallow embedding of `src/blocks/BasicBlocks.py` (EasyCNNBuilder).

The file defines five `nn.Module` subclasses: `ResidualBlock`, `DenseBlock`,
`ConvBottleneck`, `InceptionBlock` and `SqueezeAndExciteBlock`.  Each
constructor assembles a fixed pipeline of `nn.Conv2d` / `nn.BatchNorm2d` /
`nn.ReLU` / `nn.Linear` layers from integer channel-count arithmetic, and each
`forward` is a straight-line sequence of tensor operations.

The embedding works at two levels:

* Python evaluation of the repository's own code is modelled in
  `Except PyErr`: evaluating an undefined name (`depthwise`,
  `BottleneckBlock`, `out_channels`), looking up the nonexistent attribute
  `nn.ReLu` (PyTorch spells it `ReLU`), and integer floor division by zero
  all produce Python-level exceptions, exactly where they occur in the
  source text.

* the underlying tensor library is modelled at the shape level: a tensor is
  its `(n, c, h, w)` shape, a layer is a shape transformer that either
  returns the output shape or raises a tensor-library runtime error
  (channel mismatch, non-positive convolution output size), following
  PyTorch's documented shape rules.
-/

/-- Python-level exceptions that evaluation of the repository code can raise,
together with runtime errors raised inside the tensor library. -/
inductive PyErr where
  | nameError (n : String)
  | attributeError (n : String)
  | typeError (msg : String)
  | zeroDivisionError
  | torchRuntimeError (msg : String)
deriving DecidableEq, Repr

/-- Whether an exception originates in the underlying tensor library rather
than in plain Python evaluation of the repository's own code.  Name
resolution failures, attribute lookup failures, argument-passing type errors
and integer division by zero are raised by the Python runtime while executing
this repository's lines; only `torchRuntimeError` stands for an error raised
inside the tensor library itself. -/
def PyErr.fromTensorLibrary : PyErr → Bool
  | .torchRuntimeError _ => true
  | _ => false

/-- Evaluating an undefined name in boolean position raises `NameError`
(the source misspells the parameter `depth_wise` as `depthwise`). -/
def undefinedNameBool (n : String) : Except PyErr Bool :=
  .error (.nameError n)

/-- Evaluating an undefined name in integer position raises `NameError`
(the source references `out_channels` in `DenseBlock.__init__`, and
`BottleneckBlock` in `ConvBottleneck.__init__`, neither of which exists). -/
def undefinedNameNat (n : String) : Except PyErr Nat :=
  .error (.nameError n)

/-- Python integer floor division: `a // b` raises `ZeroDivisionError` when
`b = 0`; on naturals it is `Nat` division otherwise. -/
def pyFloorDiv (a b : Nat) : Except PyErr Nat :=
  if b = 0 then .error .zeroDivisionError else .ok (a / b)

/-- The shape of a 4-D tensor: batch, channels, height, width. -/
structure TensorShape where
  n : Nat
  c : Nat
  h : Nat
  w : Nat
deriving DecidableEq, Repr

/-- The layer kinds the blocks assemble: `nn.Conv2d` (with kernel size,
stride, padding and groups), `nn.BatchNorm2d`, and `nn.ReLU`. -/
inductive Layer where
  | conv2d (inCh outCh kernel stride padding groups : Nat)
  | batchNorm2d (ch : Nat)
  | reLU
deriving DecidableEq, Repr

/-- Output size of one spatial dimension of `nn.Conv2d` / `F.max_pool2d`
(dilation 1): `(size + 2*padding - kernel) / stride + 1`; the library raises
a runtime error when the computed output size would be non-positive. -/
def convOutDim (size kernel stride padding : Nat) : Except PyErr Nat :=
  if 0 < stride ∧ kernel ≤ size + 2 * padding then
    .ok ((size + 2 * padding - kernel) / stride + 1)
  else
    .error (.torchRuntimeError "output size too small")

/-- Shape semantics of a single layer applied to a 4-D input, following the
tensor library's rules: `conv2d` needs the input channel count to equal its
`in_channels` and its channel counts to be divisible by `groups`;
`batchNorm2d` needs the input channel count to equal its `ch`; `reLU` is
shape-preserving. -/
def Layer.outShape : Layer → TensorShape → Except PyErr TensorShape
  | .conv2d inCh outCh kernel stride padding groups, t =>
    if t.c = inCh ∧ 0 < groups ∧ inCh % groups = 0 ∧ outCh % groups = 0 then
      match convOutDim t.h kernel stride padding,
            convOutDim t.w kernel stride padding with
      | .ok h2, .ok w2 => .ok ⟨t.n, outCh, h2, w2⟩
      | .error e, _ => .error e
      | _, .error e => .error e
    else
      .error (.torchRuntimeError "conv2d channel mismatch")
  | .batchNorm2d ch, t =>
    if t.c = ch then .ok t
    else .error (.torchRuntimeError "batchnorm channel mismatch")
  | .reLU, t => .ok t

/-- Shape semantics of `nn.Sequential`: apply the layers in order, the empty
list (`nn.Sequential()`) being the identity. -/
def seqShape (layers : List Layer) (t : TensorShape) : Except PyErr TensorShape :=
  layers.foldl (fun acc l => acc.bind l.outShape) (.ok t)

/-- Shape semantics of `F.relu`: shape-preserving. -/
def reluShape (t : TensorShape) : TensorShape := t

/-- Shape semantics of `F.max_pool2d(x, kernel_size, stride, padding)`:
spatial dimensions follow the same formula as convolution; the library
requires the padding to be at most half the kernel size. -/
def maxPool2dShape (kernel stride padding : Nat) (t : TensorShape) :
    Except PyErr TensorShape :=
  if 2 * padding ≤ kernel then
    match convOutDim t.h kernel stride padding,
          convOutDim t.w kernel stride padding with
    | .ok h2, .ok w2 => .ok ⟨t.n, t.c, h2, w2⟩
    | .error e, _ => .error e
    | _, .error e => .error e
  else
    .error (.torchRuntimeError "pad should be at most half of kernel size")

/-- Shape semantics of `torch.cat((a, b), 1)`: concatenation along the
channel dimension requires all other dimensions to agree. -/
def catChannels (a b : TensorShape) : Except PyErr TensorShape :=
  if a.n = b.n ∧ a.h = b.h ∧ a.w = b.w then
    .ok ⟨a.n, a.c + b.c, a.h, a.w⟩
  else
    .error (.torchRuntimeError "cat size mismatch")

/-- Shape semantics of the in-place `output += y`: `y` must broadcast to
`output`'s shape without enlarging it, and the result keeps `output`'s
shape. -/
def addInPlaceShape (a b : TensorShape) : Except PyErr TensorShape :=
  if (b.n = a.n ∨ b.n = 1) ∧ (b.c = a.c ∨ b.c = 1) ∧
     (b.h = a.h ∨ b.h = 1) ∧ (b.w = a.w ∨ b.w = 1) then
    .ok a
  else
    .error (.torchRuntimeError "in-place add shape mismatch")

/-- One dimension of the library's broadcasting rule: the sizes must agree
or one of them must be 1. -/
def broadcastDim (a b : Nat) : Except PyErr Nat :=
  if a = b then .ok a
  else if a = 1 then .ok b
  else if b = 1 then .ok a
  else .error (.torchRuntimeError "broadcast size mismatch")

/-- Shape semantics of elementwise `x * y` with broadcasting, for two 4-D
tensors. -/
def mulBroadcastShape (a b : TensorShape) : Except PyErr TensorShape := do
  let n ← broadcastDim a.n b.n
  let c ← broadcastDim a.c b.c
  let h ← broadcastDim a.h b.h
  let w ← broadcastDim a.w b.w
  return ⟨n, c, h, w⟩

/-- The shape of a 2-D tensor, as produced by `view(size(0), -1)`. -/
structure Tensor2Shape where
  n : Nat
  f : Nat
deriving DecidableEq, Repr

/-- Shape semantics of `output.view(output.size(0), -1)`: flatten all
dimensions after the batch dimension. -/
def viewFlatten (t : TensorShape) : Tensor2Shape :=
  ⟨t.n, t.c * t.h * t.w⟩

/-- Shape semantics of `output.view(output.size(0), -1, 1, 1)`: the inferred
dimension becomes the channel dimension. -/
def viewUnflatten (t : Tensor2Shape) : TensorShape :=
  ⟨t.n, t.f, 1, 1⟩

/-- Shape semantics of `F.adaptive_avg_pool2d(x, (1, 1))`: pools each
channel to a single value; the library rejects empty spatial dimensions. -/
def adaptiveAvgPool2dShape (t : TensorShape) : Except PyErr TensorShape :=
  if 1 ≤ t.h ∧ 1 ≤ t.w then .ok ⟨t.n, t.c, 1, 1⟩
  else .error (.torchRuntimeError "adaptive pool on empty input")

/-- An `nn.Linear(in_features, out_features)` layer. -/
structure LinearLayer where
  inFeatures : Nat
  outFeatures : Nat
deriving DecidableEq, Repr

/-- Shape semantics of `nn.Linear` on a 2-D input: the feature dimension
must equal `in_features`. -/
def linearShape (l : LinearLayer) (t : Tensor2Shape) : Except PyErr Tensor2Shape :=
  if t.f = l.inFeatures then .ok ⟨t.n, l.outFeatures⟩
  else .error (.torchRuntimeError "linear feature mismatch")

/-- The `midle_channels` computation of `ResidualBlock.__init__` (lines
26-30): `in_channels + out_channels`, halved, rounding up on odd sums. -/
def residualMidleChannels (in_channels out_channels : Nat) : Nat :=
  let midle_channels := in_channels + out_channels
  if midle_channels % 2 = 0 then midle_channels / 2
  else midle_channels / 2 + 1

/-- The `midle_channels` computation of `DenseBlock.__init__` (lines 75-79):
`in_channels`, halved, rounding up on odd values. -/
def denseMidleChannels (in_channels : Nat) : Nat :=
  if in_channels % 2 = 0 then in_channels / 2
  else in_channels / 2 + 1

/-- Evaluating `nn.ReLu()` raises `AttributeError`: `torch.nn` has the
attribute `ReLU`, not `ReLu`. -/
def nnReLu : Except PyErr Layer :=
  .error (.attributeError "ReLu")

/-- A `ResidualBlock` module: the `mainbranch` and `skip` sequential
pipelines built by `__init__`. -/
structure ResidualBlock where
  mainbranch : List Layer
  skip : List Layer
deriving DecidableEq, Repr

/-- `ResidualBlock.__init__(in_channels, out_channels, depth_wise=True,
bottleneck=False)`, lines 24-55, statement by statement.  The body tests the
name `depthwise` (line 42) although the parameter is spelled `depth_wise`,
so evaluation raises `NameError` there; with `bottleneck=True` it raises
`AttributeError` even earlier, at `nn.ReLu()` (line 39). -/
def residualBlockInit (in_channels out_channels : Nat)
    (depth_wise bottleneck : Bool) : Except PyErr ResidualBlock := do
  let midle_channels := residualMidleChannels in_channels out_channels
  let mut current := in_channels
  let mut conv_layers : List Layer := []
  if bottleneck then
    conv_layers := conv_layers ++ [.conv2d in_channels midle_channels 1 1 0 1]
    conv_layers := conv_layers ++ [.batchNorm2d midle_channels]
    conv_layers := conv_layers ++ [← nnReLu]
    current := midle_channels
  let depthwise ← undefinedNameBool "depthwise"
  if depthwise then
    conv_layers := conv_layers ++ [.conv2d current current 3 1 1 current]
    conv_layers := conv_layers ++ [.conv2d current out_channels 1 1 0 1]
  else
    conv_layers := conv_layers ++ [.conv2d current out_channels 3 1 1 1]
  conv_layers := conv_layers ++ [.batchNorm2d out_channels]
  conv_layers := conv_layers ++ [← nnReLu]
  conv_layers := conv_layers ++ [.conv2d out_channels out_channels 1 1 0 1]
  conv_layers := conv_layers ++ [.batchNorm2d out_channels]
  let mut skip : List Layer := []
  if in_channels ≠ out_channels then
    skip := [.conv2d in_channels out_channels 1 1 0 1]
  return { mainbranch := conv_layers, skip := skip }

/-- A `DenseBlock` module: the `dense` and `regularise` sequential
pipelines built by `__init__`. -/
structure DenseBlock where
  dense : List Layer
  regularise : List Layer
deriving DecidableEq, Repr

/-- `DenseBlock.__init__(in_channels, depth_wise=True, bottleneck=False)`,
lines 73-104, statement by statement.  Like `ResidualBlock.__init__` it
tests the undefined name `depthwise` (line 91) and so raises `NameError`
(with `bottleneck=True`, `AttributeError` at `nn.ReLu()` on line 88 comes
first); even past that, line 97 reads the undefined name `out_channels`. -/
def denseBlockInit (in_channels : Nat)
    (depth_wise bottleneck : Bool) : Except PyErr DenseBlock := do
  let midle_channels := denseMidleChannels in_channels
  let mut current := in_channels
  let mut conv_layers : List Layer := []
  if bottleneck then
    conv_layers := conv_layers ++ [.conv2d in_channels midle_channels 1 1 0 1]
    conv_layers := conv_layers ++ [.batchNorm2d midle_channels]
    conv_layers := conv_layers ++ [← nnReLu]
    current := midle_channels
  let depthwise ← undefinedNameBool "depthwise"
  if depthwise then
    conv_layers := conv_layers ++ [.conv2d current current 3 1 1 current]
    conv_layers := conv_layers ++ [.conv2d current in_channels 1 1 0 1]
  else
    conv_layers := conv_layers ++ [.conv2d current in_channels 3 1 1 1]
  conv_layers := conv_layers ++ [.batchNorm2d (← undefinedNameNat "out_channels")]
  conv_layers := conv_layers ++ [← nnReLu]
  let dense := conv_layers
  let regularise : List Layer :=
    [.conv2d (in_channels * 2) (in_channels * 2) 1 1 0 1,
     .batchNorm2d ((← undefinedNameNat "out_channels") * 2),
     ← nnReLu]
  return { dense := dense, regularise := regularise }

/-- A `ConvBottleneck` module: the `conv_blocks` sequential pipeline built
by `__init__`. -/
structure ConvBottleneck where
  conv_blocks : List Layer
deriving DecidableEq, Repr

/-- The `median_channels` computation of `ConvBottleneck.__init__`
(line 124): the unguarded floor division `in_channels // downsample`. -/
def convBottleneckMedianChannels (in_channels downsample : Nat) :
    Except PyErr Nat :=
  pyFloorDiv in_channels downsample

/-- `ConvBottleneck.__init__(in_channels, downsample, depth_wise=False)`,
lines 121-139, statement by statement.  Line 122 calls
`super(BottleneckBlock, self).__init__()` but no name `BottleneckBlock`
exists, so evaluation raises `NameError` immediately; the remaining lines
(the unguarded division, `nn.ReLu()`, and the keyword-argument call of
`list.append` on line 133) are translated but unreachable. -/
def convBottleneckInit (in_channels downsample : Nat)
    (depth_wise : Bool) : Except PyErr ConvBottleneck := do
  let _ ← undefinedNameNat "BottleneckBlock"
  let mut conv_layers : List Layer := []
  let median_channels ← convBottleneckMedianChannels in_channels downsample
  conv_layers := conv_layers ++ [.conv2d in_channels median_channels 1 1 0 1]
  conv_layers := conv_layers ++ [.batchNorm2d median_channels]
  conv_layers := conv_layers ++ [← nnReLu]
  if depth_wise then
    conv_layers := conv_layers ++
      [.conv2d median_channels median_channels 3 1 1 median_channels]
    conv_layers := conv_layers ++ [.conv2d median_channels median_channels 1 1 0 1]
  else
    conv_layers := conv_layers ++
      [← (.error (.typeError "append takes no keyword arguments") : Except PyErr Layer)]
  conv_layers := conv_layers ++ [.batchNorm2d median_channels]
  conv_layers := conv_layers ++ [← nnReLu]
  conv_layers := conv_layers ++ [.conv2d median_channels in_channels 1 1 0 1]
  conv_layers := conv_layers ++ [.batchNorm2d in_channels]
  conv_layers := conv_layers ++ [← nnReLu]
  return { conv_blocks := conv_layers }

/-- An `InceptionBlock` module: the six convolution layers built by
`__init__` (lines 153-165).  Note `conv5x5` is in fact constructed with
`kernel_size=1, padding=0`. -/
structure InceptionBlock where
  conv1x1_1 : Layer
  conv1x1_2 : Layer
  conv3x3 : Layer
  conv1x1_3 : Layer
  conv5x5 : Layer
  conv1x1_4 : Layer
deriving DecidableEq, Repr

/-- `InceptionBlock.__init__(in_channels)`, lines 153-165.  This
constructor contains no undefined names and always succeeds. -/
def inceptionBlockInit (in_channels : Nat) : InceptionBlock :=
  let out_1 := in_channels / 4
  { conv1x1_1 := .conv2d in_channels (in_channels / 2) 1 1 0 1
    conv1x1_2 := .conv2d in_channels out_1 1 1 0 1
    conv3x3 := .conv2d out_1 (3 * out_1) 3 1 1 1
    conv1x1_3 := .conv2d in_channels out_1 1 1 0 1
    conv5x5 := .conv2d out_1 (3 * out_1 / 2) 1 1 0 1
    conv1x1_4 := .conv2d in_channels out_1 1 1 0 1 }

/-- A `SqueezeAndExciteBlock` module: the two fully connected layers built
by `__init__`. -/
structure SqueezeAndExciteBlock where
  fully_connected_1 : LinearLayer
  fully_connected_2 : LinearLayer
deriving DecidableEq, Repr

/-- `SqueezeAndExciteBlock.__init__(in_channels, downsample)`, lines
189-193: `median_channels = in_channels // downsample` (raising
`ZeroDivisionError` when `downsample = 0`), then two `nn.Linear` layers. -/
def squeezeAndExciteInit (in_channels downsample : Nat) :
    Except PyErr SqueezeAndExciteBlock := do
  let median_channels ← pyFloorDiv in_channels downsample
  return { fully_connected_1 := ⟨in_channels, median_channels⟩
           fully_connected_2 := ⟨median_channels, in_channels⟩ }

/-- `ResidualBlock.forward(x)`, lines 57-61: `output = self.mainbranch(x)`,
then the in-place `output += self.skip(x)`, then `F.relu(output)`. -/
def residualForward (m : ResidualBlock) (x : TensorShape) :
    Except PyErr TensorShape := do
  let output ← seqShape m.mainbranch x
  let skipped ← seqShape m.skip x
  let output ← addInPlaceShape output skipped
  return reluShape output

/-- `DenseBlock.forward(x)`, lines 106-112: `output = self.dense(x)`, then
`output = torch.cat((x, output), 1)`, then `output =
self.regularise(output)`. -/
def denseForward (m : DenseBlock) (x : TensorShape) :
    Except PyErr TensorShape := do
  let output ← seqShape m.dense x
  let output ← catChannels x output
  seqShape m.regularise output

/-- `ConvBottleneck.forward(x)`, lines 140-144: `output =
self.conv_blocks(x)`. -/
def convBottleneckForward (m : ConvBottleneck) (x : TensorShape) :
    Except PyErr TensorShape :=
  seqShape m.conv_blocks x

/-- `InceptionBlock.forward(x)`, lines 167-179: four branches, concatenated
along the channel dimension by `torch.cat((b1, b2, b3, b4), 1)`. -/
def inceptionForward (m : InceptionBlock) (x : TensorShape) :
    Except PyErr TensorShape := do
  let branch_1 := reluShape (← m.conv1x1_1.outShape x)
  let branch_2 := reluShape (← m.conv3x3.outShape (reluShape (← m.conv1x1_2.outShape x)))
  let branch_3 := reluShape (← m.conv5x5.outShape (reluShape (← m.conv1x1_3.outShape x)))
  let branch_4 := reluShape (← m.conv1x1_4.outShape (← maxPool2dShape 3 1 1 x))
  let front ← catChannels branch_1 branch_2
  let front ← catChannels front branch_3
  catChannels front branch_4

/-- `SqueezeAndExciteBlock.forward(x)`, lines 195-206: global average pool,
flatten, the two fully connected layers with `F.relu` between them and
`F.sigmoid` after (both shape-preserving), reshape to `(n, -1, 1, 1)`,
broadcast multiply with `x`, and concatenation with `x` along the channel
dimension. -/
def seForward (m : SqueezeAndExciteBlock) (x : TensorShape) :
    Except PyErr TensorShape := do
  let output ← adaptiveAvgPool2dShape x
  let output := viewFlatten output
  let output ← linearShape m.fully_connected_1 output
  let output ← linearShape m.fully_connected_2 output
  let output := viewUnflatten output
  let output ← mulBroadcastShape x output
  catChannels x output

/-- A heap of tensors, used to make the state effects of the `forward`
methods explicit: every tensor that exists before a call (the input, the
module parameters and buffers, any global) occupies a cell, a tensor
operation allocates a fresh cell for its result, and Python's in-place
`+=` overwrites an existing cell. -/
structure Heap where
  cells : List TensorShape
deriving DecidableEq, Repr

/-- Read the tensor at an address. -/
def Heap.get (hp : Heap) (a : Nat) : Option TensorShape :=
  hp.cells[a]?

/-- Allocate a fresh cell holding `t` and return its address. -/
def Heap.alloc (hp : Heap) (t : TensorShape) : Heap × Nat :=
  (⟨hp.cells ++ [t]⟩, hp.cells.length)

/-- Overwrite the cell at address `a` (Python's in-place tensor update). -/
def Heap.put (hp : Heap) (a : Nat) (t : TensorShape) : Heap :=
  ⟨hp.cells.set a t⟩

/-- `ResidualBlock.forward` with its heap effects explicit: line 58
allocates the fresh tensor `output = self.mainbranch(x)`, line 59 computes
`self.skip(x)` into a fresh cell and writes the in-place sum back into
`output`'s cell (the one write to an existing cell anywhere in the file,
and it targets the cell allocated on line 58), and line 61 allocates
`F.relu(output)`, `output`'s cell then holding the in-place sum. -/
def residualForwardHeap (m : ResidualBlock) (hp : Heap) (x : Nat) :
    Except PyErr (Heap × Nat) :=
  match hp.get x with
  | none => .error (.torchRuntimeError "invalid tensor reference")
  | some xv => do
    let ov ← seqShape m.mainbranch xv
    let (hp1, output) := hp.alloc ov
    let sv ← seqShape m.skip xv
    let (hp2, _skipped) := hp1.alloc sv
    let av ← addInPlaceShape ov sv
    let hp3 := hp2.put output av
    return hp3.alloc (reluShape av)

/-- `DenseBlock.forward` with its heap effects explicit: each statement
rebinds the local `output` to a freshly allocated tensor; nothing existing
is written. -/
def denseForwardHeap (m : DenseBlock) (hp : Heap) (x : Nat) :
    Except PyErr (Heap × Nat) :=
  match hp.get x with
  | none => .error (.torchRuntimeError "invalid tensor reference")
  | some xv => do
    let dv ← seqShape m.dense xv
    let (hp1, _output) := hp.alloc dv
    let cv ← catChannels xv dv
    let (hp2, _output2) := hp1.alloc cv
    let rv ← seqShape m.regularise cv
    return hp2.alloc rv

/-- `ConvBottleneck.forward` with its heap effects explicit: a single fresh
allocation for `output = self.conv_blocks(x)`. -/
def convBottleneckForwardHeap (m : ConvBottleneck) (hp : Heap) (x : Nat) :
    Except PyErr (Heap × Nat) :=
  match hp.get x with
  | none => .error (.torchRuntimeError "invalid tensor reference")
  | some xv => do
    let ov ← seqShape m.conv_blocks xv
    return hp.alloc ov

/-- `InceptionBlock.forward` with its heap effects explicit: the four
branch tensors and the concatenation are all freshly allocated. -/
def inceptionForwardHeap (m : InceptionBlock) (hp : Heap) (x : Nat) :
    Except PyErr (Heap × Nat) :=
  match hp.get x with
  | none => .error (.torchRuntimeError "invalid tensor reference")
  | some xv => do
    let b1 := reluShape (← m.conv1x1_1.outShape xv)
    let (hp1, _) := hp.alloc b1
    let b2 := reluShape (← m.conv3x3.outShape (reluShape (← m.conv1x1_2.outShape xv)))
    let (hp2, _) := hp1.alloc b2
    let b3 := reluShape (← m.conv5x5.outShape (reluShape (← m.conv1x1_3.outShape xv)))
    let (hp3, _) := hp2.alloc b3
    let b4 := reluShape (← m.conv1x1_4.outShape (← maxPool2dShape 3 1 1 xv))
    let (hp4, _) := hp3.alloc b4
    let front ← catChannels b1 b2
    let front ← catChannels front b3
    let out ← catChannels front b4
    return hp4.alloc out

/-- `SqueezeAndExciteBlock.forward` with its heap effects explicit: every
statement rebinds the local `output` to a fresh tensor (views share storage
but nothing is written through them). -/
def seForwardHeap (m : SqueezeAndExciteBlock) (hp : Heap) (x : Nat) :
    Except PyErr (Heap × Nat) :=
  match hp.get x with
  | none => .error (.torchRuntimeError "invalid tensor reference")
  | some xv => do
    let pv ← adaptiveAvgPool2dShape xv
    let (hp1, _) := hp.alloc pv
    let fv := viewFlatten pv
    let l1 ← linearShape m.fully_connected_1 fv
    let l2 ← linearShape m.fully_connected_2 l1
    let gv := viewUnflatten l2
    let (hp2, _) := hp1.alloc gv
    let mv ← mulBroadcastShape xv gv
    let (hp3, _) := hp2.alloc mv
    let out ← catChannels xv mv
    return hp3.alloc out

/-- Heap evolution that leaves every pre-existing cell untouched: the new
heap is at least as long and agrees with the old one below the old
length. -/
def Heap.preserves (h0 h1 : Heap) : Prop :=
  h0.cells.length ≤ h1.cells.length ∧
    ∀ a, a < h0.cells.length → h1.get a = h0.get a

/-- A computation whose only possible failure is an error raised inside the
tensor library (never a Python-level error from the repository code). -/
def TorchOnly {α : Type} (r : Except PyErr α) : Prop :=
  ∀ e, r = .error e → e.fromTensorLibrary = true

theorem Heap.preserves_refl (hp : Heap) : hp.preserves hp :=
  ⟨le_refl _, fun _ _ => rfl⟩

theorem Heap.preserves_alloc {h0 h1 : Heap} (hpre : h0.preserves h1)
    (t : TensorShape) : h0.preserves (h1.alloc t).1 := by
  refine ⟨?_, fun a ha => ?_⟩
  · simpa [Heap.alloc] using le_trans hpre.1 (Nat.le_succ _)
  · have ha1 : a < h1.cells.length := lt_of_lt_of_le ha hpre.1
    rw [show (h1.alloc t).1.get a = h1.get a from by
      simp [Heap.get, Heap.alloc, List.getElem?_append_left ha1]]
    exact hpre.2 a ha

theorem Heap.preserves_put {h0 h1 : Heap} (hpre : h0.preserves h1) {b : Nat}
    (hb : h0.cells.length ≤ b) (t : TensorShape) :
    h0.preserves (h1.put b t) := by
  refine ⟨by simpa [Heap.put] using hpre.1, fun a ha => ?_⟩
  have hab : b ≠ a := by omega
  rw [show (h1.put b t).get a = h1.get a from by
    simp [Heap.get, Heap.put, List.getElem?_set_ne hab]]
  exact hpre.2 a ha

theorem residualFrame (m : ResidualBlock) (hp : Heap) (x : Nat)
    (hp2 : Heap) (r : Nat) (hrun : residualForwardHeap m hp x = .ok (hp2, r)) :
    hp.preserves hp2 := by
  unfold residualForwardHeap at hrun
  rcases hx : hp.get x with _ | xv <;> rw [hx] at hrun
  · cases hrun
  simp only [bind, Except.bind] at hrun
  rcases hm : seqShape m.mainbranch xv with e | ov <;> simp only [hm] at hrun
  · cases hrun
  rcases hs : seqShape m.skip xv with e | sv <;> simp only [hs] at hrun
  · cases hrun
  rcases hadd : addInPlaceShape ov sv with e | av <;> simp only [hadd] at hrun
  · cases hrun
  simp only [pure, Except.pure, Except.ok.injEq] at hrun
  have hfst : hp2 =
      ((((hp.alloc ov).1.alloc sv).1.put (hp.alloc ov).2 av).alloc
        (reluShape av)).1 := (congrArg Prod.fst hrun).symm
  rw [hfst]
  exact Heap.preserves_alloc
    (Heap.preserves_put
      (Heap.preserves_alloc (Heap.preserves_alloc (Heap.preserves_refl hp) ov) sv)
      (by simp [Heap.alloc]) av)
    (reluShape av)

theorem denseFrame (m : DenseBlock) (hp : Heap) (x : Nat)
    (hp2 : Heap) (r : Nat) (hrun : denseForwardHeap m hp x = .ok (hp2, r)) :
    hp.preserves hp2 := by
  unfold denseForwardHeap at hrun
  rcases hx : hp.get x with _ | xv <;> rw [hx] at hrun
  · cases hrun
  simp only [bind, Except.bind] at hrun
  rcases hd : seqShape m.dense xv with e | dv <;> simp only [hd] at hrun
  · cases hrun
  rcases hc : catChannels xv dv with e | cv <;> simp only [hc] at hrun
  · cases hrun
  rcases hr : seqShape m.regularise cv with e | rv <;> simp only [hr] at hrun
  · cases hrun
  simp only [pure, Except.pure, Except.ok.injEq] at hrun
  have hfst : hp2 = (((hp.alloc dv).1.alloc cv).1.alloc rv).1 :=
    (congrArg Prod.fst hrun).symm
  rw [hfst]
  exact Heap.preserves_alloc
    (Heap.preserves_alloc (Heap.preserves_alloc (Heap.preserves_refl hp) dv) cv) rv

theorem convBottleneckFrame (m : ConvBottleneck) (hp : Heap) (x : Nat)
    (hp2 : Heap) (r : Nat)
    (hrun : convBottleneckForwardHeap m hp x = .ok (hp2, r)) :
    hp.preserves hp2 := by
  unfold convBottleneckForwardHeap at hrun
  rcases hx : hp.get x with _ | xv <;> rw [hx] at hrun
  · cases hrun
  simp only [bind, Except.bind] at hrun
  rcases ho : seqShape m.conv_blocks xv with e | ov <;> simp only [ho] at hrun
  · cases hrun
  simp only [pure, Except.pure, Except.ok.injEq] at hrun
  have hfst : hp2 = (hp.alloc ov).1 := (congrArg Prod.fst hrun).symm
  rw [hfst]
  exact Heap.preserves_alloc (Heap.preserves_refl hp) ov

theorem inceptionFrame (m : InceptionBlock) (hp : Heap) (x : Nat)
    (hp2 : Heap) (r : Nat) (hrun : inceptionForwardHeap m hp x = .ok (hp2, r)) :
    hp.preserves hp2 := by
  unfold inceptionForwardHeap at hrun
  rcases hx : hp.get x with _ | xv <;> rw [hx] at hrun
  · cases hrun
  simp only [bind, Except.bind] at hrun
  rcases h1 : m.conv1x1_1.outShape xv with e | v1 <;> simp only [h1] at hrun
  · cases hrun
  rcases h2 : m.conv1x1_2.outShape xv with e | v2 <;> simp only [h2] at hrun
  · cases hrun
  rcases h3 : m.conv3x3.outShape (reluShape v2) with e | v3 <;>
    simp only [h3] at hrun
  · cases hrun
  rcases h4 : m.conv1x1_3.outShape xv with e | v4 <;> simp only [h4] at hrun
  · cases hrun
  rcases h5 : m.conv5x5.outShape (reluShape v4) with e | v5 <;>
    simp only [h5] at hrun
  · cases hrun
  rcases h6 : maxPool2dShape 3 1 1 xv with e | v6 <;> simp only [h6] at hrun
  · cases hrun
  rcases h7 : m.conv1x1_4.outShape v6 with e | v7 <;> simp only [h7] at hrun
  · cases hrun
  rcases h8 : catChannels (reluShape v1) (reluShape v3) with e | v8 <;>
    simp only [h8] at hrun
  · cases hrun
  rcases h9 : catChannels v8 (reluShape v5) with e | v9 <;>
    simp only [h9] at hrun
  · cases hrun
  rcases h10 : catChannels v9 (reluShape v7) with e | v10 <;>
    simp only [h10] at hrun
  · cases hrun
  simp only [pure, Except.pure, Except.ok.injEq] at hrun
  have hfst : hp2 =
      (((((hp.alloc (reluShape v1)).1.alloc (reluShape v3)).1.alloc
        (reluShape v5)).1.alloc (reluShape v7)).1.alloc v10).1 :=
    (congrArg Prod.fst hrun).symm
  rw [hfst]
  exact Heap.preserves_alloc
    (Heap.preserves_alloc
      (Heap.preserves_alloc
        (Heap.preserves_alloc
          (Heap.preserves_alloc (Heap.preserves_refl hp) (reluShape v1))
          (reluShape v3))
        (reluShape v5))
      (reluShape v7))
    v10

theorem seFrame (m : SqueezeAndExciteBlock) (hp : Heap) (x : Nat)
    (hp2 : Heap) (r : Nat) (hrun : seForwardHeap m hp x = .ok (hp2, r)) :
    hp.preserves hp2 := by
  unfold seForwardHeap at hrun
  rcases hx : hp.get x with _ | xv <;> rw [hx] at hrun
  · cases hrun
  simp only [bind, Except.bind] at hrun
  rcases h1 : adaptiveAvgPool2dShape xv with e | pv <;> simp only [h1] at hrun
  · cases hrun
  rcases h2 : linearShape m.fully_connected_1 (viewFlatten pv) with e | l1 <;>
    simp only [h2] at hrun
  · cases hrun
  rcases h3 : linearShape m.fully_connected_2 l1 with e | l2 <;>
    simp only [h3] at hrun
  · cases hrun
  rcases h4 : mulBroadcastShape xv (viewUnflatten l2) with e | mv <;>
    simp only [h4] at hrun
  · cases hrun
  rcases h5 : catChannels xv mv with e | ov <;> simp only [h5] at hrun
  · cases hrun
  simp only [pure, Except.pure, Except.ok.injEq] at hrun
  have hfst : hp2 =
      ((((hp.alloc pv).1.alloc (viewUnflatten l2)).1.alloc mv).1.alloc ov).1 :=
    (congrArg Prod.fst hrun).symm
  rw [hfst]
  exact Heap.preserves_alloc
    (Heap.preserves_alloc
      (Heap.preserves_alloc
        (Heap.preserves_alloc (Heap.preserves_refl hp) pv)
        (viewUnflatten l2))
      mv)
    ov

theorem convOutDim_k1 (size : Nat) (hs : 1 ≤ size) :
    convOutDim size 1 1 0 = .ok size := by
  unfold convOutDim
  rw [if_pos ⟨one_pos, by omega⟩]
  congr 1
  omega

theorem convOutDim_k3p1 (size : Nat) (hs : 1 ≤ size) :
    convOutDim size 3 1 1 = .ok size := by
  unfold convOutDim
  rw [if_pos ⟨one_pos, by omega⟩]
  congr 1
  omega

theorem outShape_conv1x1 (inCh outCh n h w : Nat) (hh : 1 ≤ h) (hw : 1 ≤ w) :
    (Layer.conv2d inCh outCh 1 1 0 1).outShape ⟨n, inCh, h, w⟩ =
      .ok ⟨n, outCh, h, w⟩ := by
  simp only [Layer.outShape]
  rw [if_pos (by simp [Nat.mod_one]),
    convOutDim_k1 h hh, convOutDim_k1 w hw]

theorem outShape_conv3x3 (inCh outCh n h w : Nat) (hh : 1 ≤ h) (hw : 1 ≤ w) :
    (Layer.conv2d inCh outCh 3 1 1 1).outShape ⟨n, inCh, h, w⟩ =
      .ok ⟨n, outCh, h, w⟩ := by
  simp only [Layer.outShape]
  rw [if_pos (by simp [Nat.mod_one]),
    convOutDim_k3p1 h hh, convOutDim_k3p1 w hw]

theorem maxPool2dShape_k3 (n c h w : Nat) (hh : 1 ≤ h) (hw : 1 ≤ w) :
    maxPool2dShape 3 1 1 ⟨n, c, h, w⟩ = .ok ⟨n, c, h, w⟩ := by
  unfold maxPool2dShape
  rw [if_pos (by omega), convOutDim_k3p1 h hh, convOutDim_k3p1 w hw]

theorem catChannels_same (n a b h w : Nat) :
    catChannels ⟨n, a, h, w⟩ ⟨n, b, h, w⟩ = .ok ⟨n, a + b, h, w⟩ := by
  simp [catChannels]

theorem broadcastDim_self (a : Nat) : broadcastDim a a = .ok a := by
  simp [broadcastDim]

theorem broadcastDim_one (a : Nat) : broadcastDim a 1 = .ok a := by
  unfold broadcastDim
  rcases eq_or_ne a 1 with h1 | h1 <;> simp [h1]

theorem TorchOnly.bind {α β : Type} {r : Except PyErr α}
    {f : α → Except PyErr β} (hr : TorchOnly r) (hf : ∀ a, TorchOnly (f a)) :
    TorchOnly (r.bind f) := by
  intro e he
  cases r with
  | error e2 =>
    simp only [Except.bind] at he
    injection he with h
    rw [← h]
    exact hr e2 rfl
  | ok a =>
    exact hf a e he

theorem torchOnly_convOutDim (size k s p : Nat) :
    TorchOnly (convOutDim size k s p) := by
  intro e he
  unfold convOutDim at he
  split at he
  · cases he
  · injection he with h
    rw [← h]
    rfl

theorem torchOnly_outShape (l : Layer) (t : TensorShape) :
    TorchOnly (l.outShape t) := by
  intro e he
  cases l with
  | conv2d inCh outCh kernel stride padding groups =>
    simp only [Layer.outShape] at he
    split at he
    · rcases hh2 : convOutDim t.h kernel stride padding with eh | h2 <;>
        simp only [hh2] at he
      · injection he with h
        rw [← h]
        exact torchOnly_convOutDim t.h kernel stride padding eh hh2
      rcases hw2 : convOutDim t.w kernel stride padding with ew | w2 <;>
        simp only [hw2] at he
      · injection he with h
        rw [← h]
        exact torchOnly_convOutDim t.w kernel stride padding ew hw2
      cases he
    · injection he with h
      rw [← h]
      rfl
  | batchNorm2d ch =>
    simp only [Layer.outShape] at he
    split at he
    · cases he
    · injection he with h
      rw [← h]
      rfl
  | reLU =>
    cases he

theorem torchOnly_seqShape (layers : List Layer) (t : TensorShape) :
    TorchOnly (seqShape layers t) := by
  have key : ∀ (ls : List Layer) (acc : Except PyErr TensorShape),
      TorchOnly acc →
      TorchOnly (ls.foldl (fun acc l => acc.bind l.outShape) acc) := by
    intro ls
    induction ls with
    | nil => intro acc hacc; exact hacc
    | cons l ls ih =>
      intro acc hacc
      exact ih _ (TorchOnly.bind hacc (fun a => torchOnly_outShape l a))
  exact key layers (.ok t) (fun e he => by cases he)

theorem torchOnly_ite {α : Type} (c : Prop) [Decidable c] (x : α) (msg : String) :
    TorchOnly (if c then (.ok x : Except PyErr α)
      else .error (.torchRuntimeError msg)) := by
  intro e he
  split at he
  · cases he
  · injection he with h
    rw [← h]
    rfl

theorem torchOnly_catChannels (a b : TensorShape) : TorchOnly (catChannels a b) :=
  torchOnly_ite _ _ _

theorem torchOnly_addInPlaceShape (a b : TensorShape) :
    TorchOnly (addInPlaceShape a b) :=
  torchOnly_ite _ _ _

theorem torchOnly_adaptiveAvgPool2dShape (t : TensorShape) :
    TorchOnly (adaptiveAvgPool2dShape t) :=
  torchOnly_ite _ _ _

theorem torchOnly_linearShape (l : LinearLayer) (t : Tensor2Shape) :
    TorchOnly (linearShape l t) :=
  torchOnly_ite _ _ _

theorem torchOnly_broadcastDim (a b : Nat) : TorchOnly (broadcastDim a b) := by
  intro e he
  unfold broadcastDim at he
  split at he
  · cases he
  split at he
  · cases he
  split at he
  · cases he
  injection he with h
  rw [← h]
  rfl

theorem torchOnly_mulBroadcastShape (a b : TensorShape) :
    TorchOnly (mulBroadcastShape a b) := by
  unfold mulBroadcastShape
  exact TorchOnly.bind (torchOnly_broadcastDim _ _) fun n =>
    TorchOnly.bind (torchOnly_broadcastDim _ _) fun c =>
      TorchOnly.bind (torchOnly_broadcastDim _ _) fun h =>
        TorchOnly.bind (torchOnly_broadcastDim _ _) fun w e he => by cases he

theorem torchOnly_maxPool2dShape (kernel stride padding : Nat)
    (t : TensorShape) : TorchOnly (maxPool2dShape kernel stride padding t) := by
  intro e he
  unfold maxPool2dShape at he
  split at he
  · rcases hh2 : convOutDim t.h kernel stride padding with eh | h2 <;>
      simp only [hh2] at he
    · injection he with h
      rw [← h]
      exact torchOnly_convOutDim t.h kernel stride padding eh hh2
    rcases hw2 : convOutDim t.w kernel stride padding with ew | w2 <;>
      simp only [hw2] at he
    · injection he with h
      rw [← h]
      exact torchOnly_convOutDim t.w kernel stride padding ew hw2
    cases he
  · injection he with h
    rw [← h]
    rfl

theorem torchOnly_residualForward (m : ResidualBlock) (x : TensorShape) :
    TorchOnly (residualForward m x) := by
  unfold residualForward
  exact TorchOnly.bind (torchOnly_seqShape _ _) fun ov =>
    TorchOnly.bind (torchOnly_seqShape _ _) fun sv =>
      TorchOnly.bind (torchOnly_addInPlaceShape _ _) fun av e he => by cases he

theorem torchOnly_denseForward (m : DenseBlock) (x : TensorShape) :
    TorchOnly (denseForward m x) := by
  unfold denseForward
  exact TorchOnly.bind (torchOnly_seqShape _ _) fun dv =>
    TorchOnly.bind (torchOnly_catChannels _ _) fun cv =>
      torchOnly_seqShape _ _

theorem torchOnly_convBottleneckForward (m : ConvBottleneck) (x : TensorShape) :
    TorchOnly (convBottleneckForward m x) := by
  unfold convBottleneckForward
  exact torchOnly_seqShape _ _

theorem torchOnly_inceptionForward (m : InceptionBlock) (x : TensorShape) :
    TorchOnly (inceptionForward m x) := by
  unfold inceptionForward
  exact TorchOnly.bind (torchOnly_outShape _ _) fun r1 =>
    TorchOnly.bind (torchOnly_outShape _ _) fun r2 =>
      TorchOnly.bind (torchOnly_outShape _ _) fun r3 =>
        TorchOnly.bind (torchOnly_outShape _ _) fun r4 =>
          TorchOnly.bind (torchOnly_outShape _ _) fun r5 =>
            TorchOnly.bind (torchOnly_maxPool2dShape _ _ _ _) fun r6 =>
              TorchOnly.bind (torchOnly_outShape _ _) fun r7 =>
                TorchOnly.bind (torchOnly_catChannels _ _) fun c1 =>
                  TorchOnly.bind (torchOnly_catChannels _ _) fun c2 =>
                    torchOnly_catChannels _ _

theorem torchOnly_seForward (m : SqueezeAndExciteBlock) (x : TensorShape) :
    TorchOnly (seForward m x) := by
  unfold seForward
  exact TorchOnly.bind (torchOnly_adaptiveAvgPool2dShape _) fun pv =>
    TorchOnly.bind (torchOnly_linearShape _ _) fun l1 =>
      TorchOnly.bind (torchOnly_linearShape _ _) fun l2 =>
        TorchOnly.bind (torchOnly_mulBroadcastShape _ _) fun mv =>
          torchOnly_catChannels _ _

/-- C1: the claim that all five block classes can be constructed and invoked
fails on the code: `ResidualBlock.__init__` and `DenseBlock.__init__` read
the undefined name `depthwise` (the parameter is `depth_wise`) and
`ConvBottleneck.__init__` reads the undefined name `BottleneckBlock`, so
those three constructors always raise `NameError`; only `InceptionBlock`
and `SqueezeAndExciteBlock` construct and map a tensor to a tensor.  This
theorem evaluates the embedded code at the failing (and working) inputs. -/
theorem blocks_construction_code_bug :
    residualBlockInit 4 4 true false = .error (.nameError "depthwise") ∧
    denseBlockInit 3 true false = .error (.nameError "depthwise") ∧
    convBottleneckInit 8 2 false = .error (.nameError "BottleneckBlock") ∧
    inceptionForward (inceptionBlockInit 8) ⟨1, 8, 5, 5⟩ = .ok ⟨1, 15, 5, 5⟩ ∧
    (squeezeAndExciteInit 8 2).map (fun m => seForward m ⟨1, 8, 5, 5⟩) =
      .ok (.ok ⟨1, 16, 5, 5⟩) :=
  ⟨rfl, rfl, rfl, rfl, rfl⟩

/-- C2: the claimed behaviour of `ResidualBlock.forward` is unreachable:
`ResidualBlock.__init__(3, 8)` raises `NameError` at the `if depthwise`
test (line 42) with the default `bottleneck=False`, and `AttributeError` at
`nn.ReLu()` (line 39) with `bottleneck=True`, so no `ResidualBlock` module
can ever be constructed and `forward` is never invoked. -/
theorem residualBlock_init_name_error :
    residualBlockInit 3 8 true false = .error (.nameError "depthwise") ∧
    residualBlockInit 3 8 true true = .error (.attributeError "ReLu") :=
  ⟨rfl, rfl⟩

/-- C3: the claimed behaviour of `DenseBlock.forward` is unreachable:
`DenseBlock.__init__(4)` raises `NameError` at the `if depthwise` test
(line 91) with the default `bottleneck=False`, and `AttributeError` at
`nn.ReLu()` (line 88) with `bottleneck=True` (lines 97 and 102 also read
the undefined name `out_channels`), so no `DenseBlock` module can ever be
constructed and `forward` is never invoked. -/
theorem denseBlock_init_name_error :
    denseBlockInit 4 true false = .error (.nameError "depthwise") ∧
    denseBlockInit 4 true true = .error (.attributeError "ReLu") :=
  ⟨rfl, rfl⟩

/-- C4: for every 4-D input with `in_channels` channels and nonempty
spatial dimensions, `InceptionBlock.forward` returns the channel-wise
concatenation of its four branches: the output has
`in_channels//2 + 3*(in_channels//4) + (3*(in_channels//4))//2 +
in_channels//4` channels and the input's batch and spatial dimensions. -/
theorem inception_channel_count (ic n h w : Nat) (hh : 1 ≤ h) (hw : 1 ≤ w) :
    inceptionForward (inceptionBlockInit ic) ⟨n, ic, h, w⟩ =
      .ok ⟨n, ic / 2 + 3 * (ic / 4) + 3 * (ic / 4) / 2 + ic / 4, h, w⟩ := by
  unfold inceptionForward inceptionBlockInit
  simp only [bind, Except.bind, reluShape,
    outShape_conv1x1 _ _ _ _ _ hh hw, outShape_conv3x3 _ _ _ _ _ hh hw,
    maxPool2dShape_k3 _ _ _ _ hh hw, catChannels_same]

/-- C4 witness: the channel-count theorem instantiated at a concrete
input (channels 8, batch 1, spatial 5 by 5). -/
theorem inception_channel_count_witness :
    inceptionForward (inceptionBlockInit 8) ⟨1, 8, 5, 5⟩ =
      .ok ⟨1, 8 / 2 + 3 * (8 / 4) + 3 * (8 / 4) / 2 + 8 / 4, 5, 5⟩ :=
  inception_channel_count 8 1 5 5 (by decide) (by decide)

/-- C5 counterexample: not every exception the repository can raise
originates in the underlying tensor library.  Constructing
`SqueezeAndExciteBlock(4, 0)` raises `ZeroDivisionError` at
`in_channels // downsample`, a Python-level error produced by the
repository's own line 191. -/
theorem init_error_not_from_library :
    squeezeAndExciteInit 4 0 = .error .zeroDivisionError ∧
    PyErr.zeroDivisionError.fromTensorLibrary = false :=
  ⟨rfl, rfl⟩

/-- C5 amended: the repository contains no catching, recovery or reporting
logic and every error a `forward` method can raise does originate in the
underlying tensor library; but the constructors can raise Python-level
errors from the repository's own code: `NameError` / `AttributeError` in
`ResidualBlock`, `DenseBlock` and `ConvBottleneck` `__init__`, and
`ZeroDivisionError` in `SqueezeAndExciteBlock.__init__` when
`downsample = 0`. -/
theorem no_handler_forward_torch_only_init_python_errors :
    (∀ (m : ResidualBlock) (x : TensorShape), TorchOnly (residualForward m x)) ∧
    (∀ (m : DenseBlock) (x : TensorShape), TorchOnly (denseForward m x)) ∧
    (∀ (m : ConvBottleneck) (x : TensorShape),
      TorchOnly (convBottleneckForward m x)) ∧
    (∀ (m : InceptionBlock) (x : TensorShape), TorchOnly (inceptionForward m x)) ∧
    (∀ (m : SqueezeAndExciteBlock) (x : TensorShape), TorchOnly (seForward m x)) ∧
    (∀ i o dw bn, ∃ e, residualBlockInit i o dw bn = .error e ∧
      e.fromTensorLibrary = false) ∧
    (∀ i dw bn, ∃ e, denseBlockInit i dw bn = .error e ∧
      e.fromTensorLibrary = false) ∧
    (∀ i d dw, convBottleneckInit i d dw = .error (.nameError "BottleneckBlock") ∧
      (PyErr.nameError "BottleneckBlock").fromTensorLibrary = false) ∧
    (∀ i, squeezeAndExciteInit i 0 = .error .zeroDivisionError ∧
      PyErr.zeroDivisionError.fromTensorLibrary = false) := by
  refine ⟨torchOnly_residualForward, torchOnly_denseForward,
    torchOnly_convBottleneckForward, torchOnly_inceptionForward,
    torchOnly_seForward, ?_, ?_, ?_, ?_⟩
  · intro i o dw bn
    cases bn with
    | false => exact ⟨.nameError "depthwise", rfl, rfl⟩
    | true => exact ⟨.attributeError "ReLu", rfl, rfl⟩
  · intro i dw bn
    cases bn with
    | false => exact ⟨.nameError "depthwise", rfl, rfl⟩
    | true => exact ⟨.attributeError "ReLu", rfl, rfl⟩
  · exact fun i d dw => ⟨rfl, rfl⟩
  · exact fun i => ⟨rfl, rfl⟩

/-- C5 amended witness: the amended theorem applied at concrete inputs. -/
theorem no_handler_errors_witness :
    ∃ e, residualBlockInit 3 8 true false = .error e ∧
      e.fromTensorLibrary = false :=
  no_handler_forward_torch_only_init_python_errors.2.2.2.2.2.1 3 8 true false

/-- C6: every block's `forward` is a deterministic function of the
constructed module and the input tensor: two invocations of the same
module on equal inputs return equal outputs. -/
theorem forward_deterministic :
    (∀ (m : ResidualBlock) (x y : TensorShape), x = y →
      residualForward m x = residualForward m y) ∧
    (∀ (m : DenseBlock) (x y : TensorShape), x = y →
      denseForward m x = denseForward m y) ∧
    (∀ (m : ConvBottleneck) (x y : TensorShape), x = y →
      convBottleneckForward m x = convBottleneckForward m y) ∧
    (∀ (m : InceptionBlock) (x y : TensorShape), x = y →
      inceptionForward m x = inceptionForward m y) ∧
    (∀ (m : SqueezeAndExciteBlock) (x y : TensorShape), x = y →
      seForward m x = seForward m y) :=
  ⟨fun _ _ _ h => h ▸ rfl, fun _ _ _ h => h ▸ rfl, fun _ _ _ h => h ▸ rfl,
   fun _ _ _ h => h ▸ rfl, fun _ _ _ h => h ▸ rfl⟩

/-- C6 witness: determinism of `InceptionBlock.forward` at a concrete
module and input. -/
theorem forward_deterministic_witness :
    inceptionForward (inceptionBlockInit 8) ⟨1, 8, 5, 5⟩ =
      inceptionForward (inceptionBlockInit 8) ⟨1, 8, 5, 5⟩ :=
  forward_deterministic.2.2.2.1 (inceptionBlockInit 8) ⟨1, 8, 5, 5⟩
    ⟨1, 8, 5, 5⟩ rfl

/-- C7: every block's `forward` leaves all pre-existing tensors untouched:
on a successful run over the tensor heap, every cell that existed before
the call (the input tensor, the module's parameters, any global) holds the
same value afterwards; only freshly allocated cells are written (the one
in-place update, `output += self.skip(x)` on line 59, targets the tensor
freshly allocated on line 58). -/
theorem forward_frame :
    (∀ (m : ResidualBlock) (hp : Heap) (x : Nat) (hp2 : Heap) (r : Nat),
      residualForwardHeap m hp x = .ok (hp2, r) → hp.preserves hp2) ∧
    (∀ (m : DenseBlock) (hp : Heap) (x : Nat) (hp2 : Heap) (r : Nat),
      denseForwardHeap m hp x = .ok (hp2, r) → hp.preserves hp2) ∧
    (∀ (m : ConvBottleneck) (hp : Heap) (x : Nat) (hp2 : Heap) (r : Nat),
      convBottleneckForwardHeap m hp x = .ok (hp2, r) → hp.preserves hp2) ∧
    (∀ (m : InceptionBlock) (hp : Heap) (x : Nat) (hp2 : Heap) (r : Nat),
      inceptionForwardHeap m hp x = .ok (hp2, r) → hp.preserves hp2) ∧
    (∀ (m : SqueezeAndExciteBlock) (hp : Heap) (x : Nat) (hp2 : Heap) (r : Nat),
      seForwardHeap m hp x = .ok (hp2, r) → hp.preserves hp2) :=
  ⟨residualFrame, denseFrame, convBottleneckFrame, inceptionFrame, seFrame⟩

/-- C7 witness: a concrete successful run of `ResidualBlock.forward` on a
one-cell heap (an identity module built by hand, since the constructor
itself raises) preserves the pre-existing cell. -/
theorem forward_frame_witness :
    Heap.preserves ⟨[⟨1, 2, 3, 3⟩]⟩
      ⟨[⟨1, 2, 3, 3⟩, ⟨1, 2, 3, 3⟩, ⟨1, 2, 3, 3⟩, ⟨1, 2, 3, 3⟩]⟩ :=
  forward_frame.1 ⟨[], []⟩ ⟨[⟨1, 2, 3, 3⟩]⟩ 0
    ⟨[⟨1, 2, 3, 3⟩, ⟨1, 2, 3, 3⟩, ⟨1, 2, 3, 3⟩, ⟨1, 2, 3, 3⟩]⟩ 3 rfl

/-- C8: for every constructed `SqueezeAndExciteBlock` and every 4-D input
with `in_channels` channels and nonempty spatial dimensions, `forward`
returns the channel-wise concatenation of the input with the gated input
(`torch.cat((x, x * gate), 1)` on line 205), so the output has exactly
`2 * in_channels` channels — not only the product of input and gate. -/
theorem seForward_concat_channels (ic ds n h w : Nat)
    (m : SqueezeAndExciteBlock) (hm : squeezeAndExciteInit ic ds = .ok m)
    (hh : 1 ≤ h) (hw : 1 ≤ w) :
    seForward m ⟨n, ic, h, w⟩ = .ok ⟨n, 2 * ic, h, w⟩ := by
  have hds : ds ≠ 0 := by
    intro h0
    subst h0
    simp [squeezeAndExciteInit, pyFloorDiv, bind, Except.bind] at hm
  have hm2 : m = ⟨⟨ic, ic / ds⟩, ⟨ic / ds, ic⟩⟩ := by
    simp [squeezeAndExciteInit, pyFloorDiv, hds, bind, Except.bind, pure,
      Except.pure] at hm
    exact hm.symm
  subst hm2
  unfold seForward
  simp only [bind, Except.bind]
  rw [show adaptiveAvgPool2dShape ⟨n, ic, h, w⟩ = .ok ⟨n, ic, 1, 1⟩ from by
    simp [adaptiveAvgPool2dShape, hh, hw]]
  simp [linearShape, mulBroadcastShape, broadcastDim_self, broadcastDim_one,
    catChannels, viewFlatten, viewUnflatten, two_mul, bind, Except.bind,
    pure, Except.pure]

/-- C8 witness: the concatenation theorem instantiated at the module
`SqueezeAndExciteBlock(8, 2)` and a concrete 8-channel input. -/
theorem seForward_concat_channels_witness :
    seForward ⟨⟨8, 4⟩, ⟨4, 8⟩⟩ ⟨1, 8, 5, 5⟩ = .ok ⟨1, 2 * 8, 5, 5⟩ :=
  seForward_concat_channels 8 2 1 5 5 ⟨⟨8, 4⟩, ⟨4, 8⟩⟩ rfl
    (by decide) (by decide)

/-- C9: the `midle_channels` values are ceilings: in `ResidualBlock.__init__`
it equals the ceiling of `(in_channels + out_channels) / 2` (which on
naturals is `(in_channels + out_channels + 1) / 2`), and in
`DenseBlock.__init__` it equals the ceiling of `in_channels / 2`. -/
theorem midle_channels_ceiling (i o : Nat) :
    residualMidleChannels i o = (i + o + 1) / 2 ∧
    denseMidleChannels i = (i + 1) / 2 := by
  constructor
  · unfold residualMidleChannels
    dsimp only
    split <;> omega
  · unfold denseMidleChannels
    split <;> omega

/-- C10: `SqueezeAndExciteBlock.__init__` raises `ZeroDivisionError` when
`downsample = 0`; for `in_channels ≥ 1` and `downsample ≥ 1` the division
is defined (`median_channels = in_channels // downsample`) and construction
completes; and the `median_channels` computation of
`ConvBottleneck.__init__` is the same unguarded division, raising
`ZeroDivisionError` at `downsample = 0`. -/
theorem se_downsample_division (ic ds : Nat) :
    squeezeAndExciteInit ic 0 = .error .zeroDivisionError ∧
    (1 ≤ ic → 1 ≤ ds →
      squeezeAndExciteInit ic ds = .ok ⟨⟨ic, ic / ds⟩, ⟨ic / ds, ic⟩⟩) ∧
    convBottleneckMedianChannels ic 0 = .error .zeroDivisionError := by
  refine ⟨rfl, fun h1 h2 => ?_, rfl⟩
  have hds : ds ≠ 0 := by omega
  simp [squeezeAndExciteInit, pyFloorDiv, hds, bind, Except.bind, pure,
    Except.pure]

/-- C10 witness: construction succeeds at `SqueezeAndExciteBlock(8, 3)`
with `median_channels = 2`. -/
theorem se_downsample_division_witness :
    squeezeAndExciteInit 8 3 = .ok ⟨⟨8, 2⟩, ⟨2, 8⟩⟩ :=
  (se_downsample_division 8 3).2.1 (by decide) (by decide)
